import Mathlib

/-!
Shallow embedding of the shopify-mcp server core, verified against its
natural-language specification.

The embedding covers:
* the resilient GraphQL RPC client (`ShopifyClient.query` / `ShopifyClient.mutate`,
  from `src/utils/shopifyClient.ts`), with network attempts modelled by an
  oracle `Nat → Attempt V` giving the outcome of each sequential attempt and
  jitter modelled by an oracle `Nat → Nat` (the value of `Math.random() * 1000`
  at each attempt, in milliseconds);
* the tool boundary (`BaseTool.execute`, `BaseTool.toGraphQLId`,
  `BaseTool.extractNumericId`, `BaseTool.extractEdges`, from
  `src/tools/baseTool.ts`), with JavaScript runtime values modelled by `JVal`;
* the token provider refresh step (`ShopifyAuth`, from `src/lib/shopifyAuth.ts`),
  timers modelled as explicit delays returned by the transition function;
* endpoint construction (`src/config/config.ts` and `src/index.ts`);
* the tool-package registry (`src/utils/toolPackageManager.ts`);
* sensitive-value masking (`src/utils/logger.ts`, `src/config/config.ts`).

JavaScript strings are modelled as Lean `String` (lists of characters);
JavaScript objects as association lists in insertion order; `undefined` and
`null` as explicit `JVal` constructors; thrown exceptions as `Except`/`Sum`
error results.
-/

/-- JavaScript `s.startsWith(p)`, on the character sequences of the strings. -/
def jsStartsWith (s p : String) : Bool :=
  p.data.isPrefixOf s.data

/-- Segment containment on character lists: `needle` occurs contiguously. -/
def containsSeg (needle : List Char) : List Char → Bool
  | [] => needle.isEmpty
  | c :: rest => needle.isPrefixOf (c :: rest) || containsSeg needle rest

/-- JavaScript `s.includes(sub)`: `sub` occurs as a contiguous substring. -/
def jsIncludes (s sub : String) : Bool :=
  containsSeg sub.data s.data

/-- JavaScript `String.prototype.split` with a single-character separator,
on character lists.  Always returns a non-empty list of fields. -/
def splitOnChar (sep : Char) : List Char → List (List Char)
  | [] => [[]]
  | c :: cs =>
    if c = sep then [] :: splitOnChar sep cs
    else
      match splitOnChar sep cs with
      | [] => [[c]]
      | h :: t => (c :: h) :: t

/-- JavaScript property lookup on an object literal modelled as an association
list in insertion order (keys are unique in a JS object, so first match). -/
def jsLookup {β : Type} : List (String × β) → String → Option β
  | [], _ => none
  | (k₂, v) :: rest, k => if k₂ = k then some v else jsLookup rest k

/-!  ## Resilient RPC client (`src/utils/shopifyClient.ts`)  -/

/-- Outcome of one network attempt of `GraphQLClient.request`, as observed by
the `catch` block of `ShopifyClient.query` / `ShopifyClient.mutate`:
success, a `ClientError` (carrying `response.status` and `response.errors`),
or any other thrown error (timeouts, connection resets, ...). -/
inductive Attempt (V : Type) where
  | success (data : V)
  | clientError (status : Nat) (errors : List String) (message : String)
  | networkError (message : String)
deriving DecidableEq

/-- Source `error.response.status >= 400 && error.response.status < 500`. -/
def is4xx (status : Nat) : Bool :=
  400 ≤ status && status < 500

/-- An attempt outcome the retry loop treats as transient: any failure other
than a `ClientError` with a 4xx status. -/
def Attempt.isTransientFailure {V : Type} : Attempt V → Bool
  | .success _ => false
  | .clientError status _ _ => !is4xx status
  | .networkError _ => true

/-- Any failed attempt outcome. -/
def Attempt.isFailure {V : Type} : Attempt V → Bool
  | .success _ => false
  | .clientError _ _ _ => true
  | .networkError _ => true

/-- The `details` payload attached to a thrown `GraphQLError`
(`src/types/types.ts`); the client builds three shapes of it, so every field
is optional with the source defaults. -/
structure GraphQLErrorDetails where
  query : Option String := none
  mutation : Option String := none
  -- the `variables` field of the source; `variables` is a reserved word in Lean
  variableKeys : List String := []
  status : Option Nat := none
  errors : List String := []
  lastError : Option String := none
  error : Option String := none
  attempts : Option Nat := none
deriving DecidableEq

/-- Source `GraphQLError extends ShopifyMCPError` with fixed code `GRAPHQL_ERROR`. -/
structure GraphQLError where
  message : String
  code : String := "GRAPHQL_ERROR"
  details : GraphQLErrorDetails
deriving DecidableEq

/-- Source `ShopifyClient.truncateQuery`: cap the logged document at 200 characters. -/
def truncateQuery (q : String) : String :=
  if q.length > 200 then q.take 200 ++ "..." else q

/-- Source `ShopifyClient.getVariableKeys`: `Object.keys(variables)` of the variables
object (an association list), or `[]` when no variables are passed. -/
def getVariableKeys (vars : Option (List (String × String))) : List String :=
  match vars with
  | none => []
  | some l => l.map Prod.fst

/-- Source `ShopifyClient.calculateRetryDelay`: exponential backoff
`min(1000 * 2^attempt + jitter, 30000)`, with `jitter` the sampled value of
`Math.random() * 1000` in milliseconds. -/
def calculateRetryDelay (jitter : Nat) (attempt : Nat) : Nat :=
  min (1000 * 2 ^ attempt + jitter) 30000

/-- Message of the error thrown when all retries are exhausted. -/
def exhaustedMessage (retryAttempts : Nat) (lastErr : Option String) : String :=
  "GraphQL request failed after " ++ toString retryAttempts ++ " retries: "
    ++ lastErr.getD "undefined"

/-- Observable trace of one `query` call: how many network attempts were made
and which backoff delays were awaited between attempts, in order. -/
structure QueryTrace where
  attemptsMade : Nat
  delays : List Nat
deriving DecidableEq

/-- The retry loop of `ShopifyClient.query`
(`for (let attempt = 0; attempt <= this.retryAttempts; attempt++)`).
`fuel` is the number of loop iterations left (`retryAttempts + 1 - attempt`);
`lastErr` is the accumulated `lastError`; `delays` accumulates awaited backoff
delays in reverse.  When the loop exits, the exhausted `GraphQLError` is
thrown with `attempts = retryAttempts + 1`. -/
def ShopifyClient.queryGo {V : Type} (retryAttempts : Nat) (oracle : Nat → Attempt V)
    (jitter : Nat → Nat) (q : String) (vars : Option (List (String × String))) :
    Nat → Nat → Option String → List Nat → (V ⊕ GraphQLError) × QueryTrace
  | 0, attempt, lastErr, delays =>
    (Sum.inr { message := exhaustedMessage retryAttempts lastErr,
               details := { query := some (truncateQuery q),
                            variableKeys := getVariableKeys vars,
                            lastError := lastErr,
                            attempts := some (retryAttempts + 1) } },
     ⟨attempt, delays.reverse⟩)
  | fuel + 1, attempt, _lastErr, delays =>
    match oracle attempt with
    | .success d => (Sum.inl d, ⟨attempt + 1, delays.reverse⟩)
    | .clientError status errs msg =>
      if is4xx status then
        (Sum.inr { message := "GraphQL client error: " ++ msg,
                   details := { query := some (truncateQuery q),
                                variableKeys := getVariableKeys vars,
                                status := some status,
                                errors := errs } },
         ⟨attempt + 1, delays.reverse⟩)
      else if attempt < retryAttempts then
        ShopifyClient.queryGo retryAttempts oracle jitter q vars fuel (attempt + 1)
          (some msg) (calculateRetryDelay (jitter attempt) attempt :: delays)
      else
        ShopifyClient.queryGo retryAttempts oracle jitter q vars fuel (attempt + 1)
          (some msg) delays
    | .networkError msg =>
      if attempt < retryAttempts then
        ShopifyClient.queryGo retryAttempts oracle jitter q vars fuel (attempt + 1)
          (some msg) (calculateRetryDelay (jitter attempt) attempt :: delays)
      else
        ShopifyClient.queryGo retryAttempts oracle jitter q vars fuel (attempt + 1)
          (some msg) delays

/-- Source `ShopifyClient.query`: run the retry loop from attempt 0 with
`retryAttempts + 1` iterations available, no last error, no delays yet. -/
def ShopifyClient.query {V : Type} (retryAttempts : Nat) (oracle : Nat → Attempt V)
    (jitter : Nat → Nat) (q : String) (vars : Option (List (String × String))) :
    (V ⊕ GraphQLError) × QueryTrace :=
  ShopifyClient.queryGo retryAttempts oracle jitter q vars (retryAttempts + 1) 0 none []

/-- Source `ShopifyClient.mutate`: a single attempt, never retried; the second
component is the number of network attempts performed. -/
def ShopifyClient.mutate {V : Type} (outcome : Attempt V) (m : String)
    (vars : Option (List (String × String))) : (V ⊕ GraphQLError) × Nat :=
  match outcome with
  | .success d => (Sum.inl d, 1)
  | .clientError status errs msg =>
    (Sum.inr { message := "GraphQL mutation error: " ++ msg,
               details := { mutation := some (truncateQuery m),
                            variableKeys := getVariableKeys vars,
                            status := some status,
                            errors := errs } }, 1)
  | .networkError msg =>
    (Sum.inr { message := "GraphQL mutation failed: " ++ msg,
               details := { mutation := some (truncateQuery m),
                            variableKeys := getVariableKeys vars,
                            error := some msg } }, 1)

/-!  ## Tool boundary (`src/tools/baseTool.ts`)  -/

/-- Source `ShopifyMCPError` (`src/types/types.ts`): message, coarse error code, and a
structured details record (modelled as a key/value list). -/
structure ShopifyMCPError where
  message : String
  code : String
  details : List (String × String)
deriving DecidableEq

/-- A thrown JavaScript error as seen by `BaseTool.execute`: either a
`ShopifyMCPError` subclass, or any other error (constructor name + message). -/
inductive JSError where
  | mcp (e : ShopifyMCPError)
  | other (ctorName : String) (message : String)
deriving DecidableEq

/-- The `metadata` record of a `ToolResult` as built by `BaseTool.execute`. -/
structure ToolMetadata where
  duration_ms : Nat
  timestamp : String
  errorCode : Option String := none
  errorDetails : Option (List (String × String)) := none
  errorType : Option String := none
deriving DecidableEq

/-- Source `ToolResult` (`src/types/types.ts`). -/
structure ToolResult (V : Type) where
  success : Bool
  data : Option V := none
  error : Option String := none
  metadata : ToolMetadata
deriving DecidableEq

/-- Source `BaseTool.validateArgs`: schema validation; a parse failure (modelled as
`some message`) is rethrown as a `ToolExecutionError`. -/
def BaseTool.validateArgs (toolName : String) (parseError : Option String) :
    Except ShopifyMCPError Unit :=
  match parseError with
  | none => Except.ok ()
  | some m =>
    Except.error { message := "Invalid arguments for tool \x27" ++ toolName ++ "\x27: " ++ m,
                   code := "TOOL_EXECUTION_ERROR",
                   details := [] }

/-- Source `BaseTool.execute`: validate, run the implementation, and convert every
failure into a `success := false` result instead of propagating it.
`duration` and `timestamp` stand for the measured `Date.now()` duration and
the ISO timestamp; `impl` is the behaviour of `executeImpl` on the given
arguments (a value or a thrown error). -/
def BaseTool.execute {V : Type} (toolName : String) (duration : Nat) (timestamp : String)
    (parseError : Option String) (impl : Except JSError V) : ToolResult V :=
  match BaseTool.validateArgs toolName parseError with
  | Except.error e =>
    { success := false, error := some e.message,
      metadata := { duration_ms := duration, timestamp := timestamp,
                    errorCode := some e.code, errorDetails := some e.details } }
  | Except.ok () =>
    match impl with
    | Except.ok d =>
      { success := true, data := some d,
        metadata := { duration_ms := duration, timestamp := timestamp } }
    | Except.error (JSError.mcp e) =>
      { success := false, error := some e.message,
        metadata := { duration_ms := duration, timestamp := timestamp,
                      errorCode := some e.code, errorDetails := some e.details } }
    | Except.error (JSError.other nm msg) =>
      { success := false, error := some ("Tool execution failed: " ++ msg),
        metadata := { duration_ms := duration, timestamp := timestamp,
                      errorType := some nm } }

/-- Source `BaseTool.toGraphQLId`: qualify a bare id, pass a qualified id through. -/
def BaseTool.toGraphQLId (id ty : String) : String :=
  if jsStartsWith id "gid://shopify/" then id
  else "gid://shopify/" ++ ty ++ "/" ++ id

/-- Source `BaseTool.extractNumericId`: on a qualified id, `split("/")` and take the
last part; otherwise return the input unchanged. -/
def BaseTool.extractNumericId (graphqlId : String) : String :=
  if jsStartsWith graphqlId "gid://shopify/" then
    String.mk ((splitOnChar '/' graphqlId.data).getLastD [])
  else graphqlId

/-!  ## Token provider (`src/lib/shopifyAuth.ts`)  -/

/-- The mutable token state of `ShopifyAuth`: `accessToken` (null before
`initialize()`) and `expiresAt` in epoch milliseconds. -/
structure AuthState where
  accessToken : Option String
  expiresAt : Int
deriving DecidableEq

/-- Source `REFRESH_MARGIN_MS = 5 * 60 * 1000`. -/
def REFRESH_MARGIN_MS : Int := 5 * 60 * 1000

/-- Source `ShopifyAuth.getAccessToken`: state error before `initialize()`,
otherwise the stored token. -/
def ShopifyAuth.getAccessToken (s : AuthState) : Except String String :=
  match s.accessToken with
  | none => Except.error "ShopifyAuth not initialized — call initialize() first"
  | some t => Except.ok t

/-- State after a successful `fetchToken` at time `now`: the stored token is
replaced and `expiresAt` becomes `now + expires_in * 1000`. -/
def ShopifyAuth.applyFetchToken (now : Int) (token : String) (expires_in : Int)
    (_s : AuthState) : AuthState :=
  { accessToken := some token, expiresAt := now + expires_in * 1000 }

/-- Source `ShopifyAuth.scheduleRefresh` delay computation at time `now`:
`max(expiresAt - now - REFRESH_MARGIN_MS, 0)`. -/
def ShopifyAuth.refreshDelay (now : Int) (s : AuthState) : Int :=
  max (s.expiresAt - now - REFRESH_MARGIN_MS) 0

/-- Outcome of the `fetchToken` call made by the scheduled refresh timer. -/
inductive RefreshOutcome where
  | success (token : String) (expires_in : Int)
  | failure (errMsg : String)

/-- One firing of the refresh timer at time `now` (the body of the callback in
`ShopifyAuth.scheduleRefresh`): on success the token state is replaced and the
next refresh is scheduled with the normal margin-based delay; on failure the
state is left untouched and a retry is scheduled after a fixed 60 000 ms.
Returns the new state and the delay of the next scheduled timer. -/
def ShopifyAuth.refreshStep (now : Int) (o : RefreshOutcome) (s : AuthState) :
    AuthState × Int :=
  match o with
  | .success token ei =>
    let s' := ShopifyAuth.applyFetchToken now token ei s
    (s', ShopifyAuth.refreshDelay now s')
  | .failure _ => (s, 60000)

/-!  ## Endpoint construction (`src/config/config.ts`, `src/index.ts`)  -/

/-- JavaScript `a || b` on an optional string: the empty string is falsy. -/
def jsOrString (v : Option String) (dflt : String) : String :=
  match v with
  | some s => if s = "" then dflt else s
  | none => dflt

/-- Source `src/index.ts`: `argv.apiVersion || process.env.SHOPIFY_API_VERSION || "2026-01"`. -/
def resolveApiVersion (flagApiVersion envApiVersion : Option String) : String :=
  jsOrString flagApiVersion (jsOrString envApiVersion "2026-01")

/-- The GraphQL endpoint constructed in `src/index.ts` for the resolved API
version. -/
def indexGraphQLEndpoint (domain apiVersion : String) : String :=
  "https://" ++ domain ++ "/admin/api/" ++ apiVersion ++ "/graphql.json"

/-- Source `ConfigManager.getShopifyGraphQLEndpoint` (`src/config/config.ts`): the API
version is hardcoded to `2023-10`, and a domain already starting with `http`
is used verbatim. -/
def ConfigManager.getShopifyGraphQLEndpoint (domain : String) : String :=
  if jsStartsWith domain "http" then domain ++ "/admin/api/2023-10/graphql.json"
  else "https://" ++ domain ++ "/admin/api/2023-10/graphql.json"

/-!  ## Tool-package registry (`src/utils/toolPackageManager.ts`)  -/

/-- Source `ToolPackageConfig` (`src/types/types.ts`). -/
structure ToolPackageConfig where
  name : String
  description : String
  tools : List String
deriving DecidableEq

/-- Source `ConfigurationError` (`src/types/types.ts`), reduced to its message. -/
structure ConfigurationError where
  message : String
deriving DecidableEq

/-- Source `ToolPackageManager.getDefaultToolPackages`: the built-in package table. -/
def ToolPackageManager.getDefaultToolPackages : List (String × ToolPackageConfig) :=
  [("none", { name := "None", description := "No tools loaded", tools := [] }),
   ("basic",
    { name := "Basic",
      description := "Essential read-only tools for basic store information",
      tools := ["get-products", "get-product-by-id", "get-customers",
                "get-orders", "get-order-by-id"] }),
   ("full",
    { name := "Full",
      description := "All available tools for complete store management",
      tools := ["get-products", "get-product-by-id", "get-customers",
                "get-customer-orders", "get-orders", "get-order-by-id",
                "create-product", "update-customer"] }),
   ("product_management",
    { name := "Product Management",
      description := "Tools focused on product operations",
      tools := ["get-products", "get-product-by-id", "create-product"] }),
   ("customer_service",
    { name := "Customer Service",
      description := "Tools for customer and order management",
      tools := ["get-customers", "get-customer-orders", "get-orders",
                "get-order-by-id", "update-customer"] }),
   ("order_management",
    { name := "Order Management",
      description := "Tools specifically for order operations",
      tools := ["get-orders", "get-order-by-id"] })]

/-- Source `ToolPackageManager.validatePackage`: a configured name with no matching
loaded package is a `ConfigurationError` listing the valid package names. -/
def ToolPackageManager.validatePackage (packages : List (String × ToolPackageConfig))
    (activePackage : String) : Except ConfigurationError Unit :=
  match jsLookup packages activePackage with
  | none =>
    Except.error
      { message := "Invalid tool package \x27" ++ activePackage
          ++ "\x27. Available packages: "
          ++ String.intercalate ", " (packages.map Prod.fst) }
  | some _ => Except.ok ()

/-- Source `ToolPackageManager.getActiveTools`: the name `none` short-circuits to the
empty list before any lookup; otherwise look the package up and return its
tool list, or a `ConfigurationError` when it is absent. -/
def ToolPackageManager.getActiveTools (packages : List (String × ToolPackageConfig))
    (activePackage : String) : Except ConfigurationError (List String) :=
  if activePackage = "none" then Except.ok []
  else
    match jsLookup packages activePackage with
    | none => Except.error { message := "Unknown tool package: " ++ activePackage }
    | some cfg => Except.ok cfg.tools

/-!  ## Sensitive-value masking (`src/utils/logger.ts`, `src/config/config.ts`)  -/

/-- A JavaScript runtime value as far as the logger cares: a string or some
non-string value. -/
inductive JSValue where
  | str (s : String)
  | num (n : Int)
  | boolean (b : Bool)
  | null
deriving DecidableEq

/-- Source `MCPLogger.maskSensitiveValue`: non-strings become `[MASKED]`; short
strings are fully starred; longer strings keep the first and last 4
characters with the middle starred. -/
def MCPLogger.maskSensitiveValue : JSValue → String
  | JSValue.str s =>
    if s.length ≤ 8 then String.mk (List.replicate s.length '*')
    else s.take 4 ++ String.mk (List.replicate (s.length - 8) '*')
      ++ s.drop (s.length - 4)
  | _ => "[MASKED]"

/-- Source `ConfigManager.maskSensitiveValue` (`src/config/config.ts`): the
string-only variant of the same masking. -/
def ConfigManager.maskSensitiveValue (s : String) : String :=
  if s.length ≤ 8 then String.mk (List.replicate s.length '*')
  else s.take 4 ++ String.mk (List.replicate (s.length - 8) '*')
    ++ s.drop (s.length - 4)

/-- JavaScript `toLowerCase()` on one character (ASCII range, which covers
every key and sensitive-key name in the source). -/
def jsToLowerChar (c : Char) : Char :=
  if 'A' ≤ c ∧ c ≤ 'Z' then Char.ofNat (c.toNat + 32) else c

/-- JavaScript `s.toLowerCase()`. -/
def jsToLower (s : String) : String :=
  String.mk (s.data.map jsToLowerChar)

/-- The `sensitiveKeys` list of `MCPLogger.isSensitiveKey`. -/
def sensitiveKeys : List String :=
  ["token", "password", "secret", "key", "auth", "authorization",
   "accessToken", "refreshToken", "apiKey", "credential"]

/-- Source `MCPLogger.isSensitiveKey`: case-insensitive substring match against the
sensitive key list. -/
def MCPLogger.isSensitiveKey (key : String) : Bool :=
  sensitiveKeys.any (fun sk => jsIncludes (jsToLower key) (jsToLower sk))

/-- Source `MCPLogger.sanitizeMeta`: mask the value of every sensitive key of the
metadata object before it is logged. -/
def MCPLogger.sanitizeMeta (meta : List (String × JSValue)) : List (String × JSValue) :=
  meta.map (fun kv =>
    if MCPLogger.isSensitiveKey kv.1 then (kv.1, JSValue.str (MCPLogger.maskSensitiveValue kv.2))
    else kv)

/-!  ## GraphQL response values and `BaseTool.extractEdges`  -/

/-- A JSON-like JavaScript value as handled by `BaseTool.extractEdges`:
`undefined` (absent property) and `null` are distinct, both falsy. -/
inductive JVal where
  | null
  | undef
  | boolean (b : Bool)
  | num (n : Int)
  | str (s : String)
  | arr (elems : List JVal)
  | obj (fields : List (String × JVal))

/-- JavaScript truthiness of a `JVal`. -/
def JVal.truthy : JVal → Bool
  | .null => false
  | .undef => false
  | .boolean b => b
  | .num n => n != 0
  | .str s => s != ""
  | .arr _ => true
  | .obj _ => true

/-- Whether property access on this value throws a `TypeError` in JS. -/
def JVal.isNullish : JVal → Bool
  | .null => true
  | .undef => true
  | _ => false

/-- Property access `v[k]` on a value known to be non-nullish: a field of an
object, `undefined` otherwise (primitives and arrays have no such fields). -/
def JVal.getProp (v : JVal) (k : String) : JVal :=
  match v with
  | .obj fs => (jsLookup fs k).getD JVal.undef
  | _ => JVal.undef

/-- Source `edge.node` inside `extractEdges`: property access on an arbitrary edge
value, which throws a `TypeError` when the edge is `null` or `undefined`. -/
def edgeNode : JVal → Except String JVal
  | JVal.null => Except.error "TypeError: Cannot read properties of null (reading node)"
  | JVal.undef => Except.error "TypeError: Cannot read properties of undefined (reading node)"
  | e => Except.ok (e.getProp "node")

/-- JavaScript `path.split(".")` producing the list of path components. -/
def splitPath (path : String) : List String :=
  (splitOnChar '.' path.data).map String.mk

/-- The body of `BaseTool.extractEdges` after the path has been split: walk
the path (returning `[]` as soon as the current value or the next component is
falsy, mirroring the short-circuit of `!current || !current[part]`), then
require a truthy `edges` array and map each edge to its `node`. -/
def BaseTool.extractEdgesGo : JVal → List String → Except String (List JVal)
  | current, [] =>
    let edges := current.getProp "edges"
    if edges.truthy = false then Except.ok []
    else
      match edges with
      | JVal.arr xs => xs.mapM edgeNode
      | _ => Except.ok []
  | current, part :: rest =>
    if current.truthy = false then Except.ok []
    else
      let nxt := current.getProp part
      if nxt.truthy = false then Except.ok []
      else BaseTool.extractEdgesGo nxt rest

/-- Source `BaseTool.extractEdges`. -/
def BaseTool.extractEdges (response : JVal) (path : String) : Except String (List JVal) :=
  BaseTool.extractEdgesGo response (splitPath path)

mutual

/-- No array anywhere inside the value contains a `null`/`undefined` element
(the shape of every well-formed GraphQL connection payload). -/
def JVal.noNullElems : JVal → Bool
  | JVal.arr xs => JVal.noNullElemsList xs
  | JVal.obj fs => JVal.noNullElemsFields fs
  | _ => true

/-- Source `JVal.noNullElems` on the elements of an array. -/
def JVal.noNullElemsList : List JVal → Bool
  | [] => true
  | e :: es => !e.isNullish && JVal.noNullElems e && JVal.noNullElemsList es

/-- Source `JVal.noNullElems` on the fields of an object. -/
def JVal.noNullElemsFields : List (String × JVal) → Bool
  | [] => true
  | kv :: kvs => JVal.noNullElems kv.2 && JVal.noNullElemsFields kvs

end

/-!  ## Theorems  -/

/-- C2: if the first request attempt of `query` fails with a client error whose
HTTP status is in `[400, 500)`, the call makes exactly 1 attempt, waits no
backoff delay, and fails with a classified `GraphQLError` carrying the status
and the remote error list. -/
theorem query_client_error_single_attempt {V : Type} (N status : Nat) (errs : List String)
    (msg : String) (oracle : Nat → Attempt V) (jitter : Nat → Nat) (q : String)
    (vars : Option (List (String × String)))
    (h0 : oracle 0 = Attempt.clientError status errs msg)
    (hlo : 400 ≤ status) (hhi : status < 500) :
    ShopifyClient.query N oracle jitter q vars =
      (Sum.inr { message := "GraphQL client error: " ++ msg,
                 details := { query := some (truncateQuery q),
                              variableKeys := getVariableKeys vars,
                              status := some status,
                              errors := errs } },
       ⟨1, []⟩) := by
  have h4 : is4xx status = true := by
    simp only [is4xx, Bool.and_eq_true, decide_eq_true_eq]
    omega
  simp [ShopifyClient.query, ShopifyClient.queryGo, h0, h4]

/-- Witness for `query_client_error_single_attempt` at a concrete 404. -/
theorem query_client_error_single_attempt_witness :
    ShopifyClient.query 3 (fun _ => Attempt.clientError (V := Nat) 404 ["Not Found"] "nf")
      (fun _ => 0) "query q" none =
      (Sum.inr { message := "GraphQL client error: " ++ "nf",
                 details := { query := some (truncateQuery "query q"),
                              variableKeys := getVariableKeys none,
                              status := some 404,
                              errors := ["Not Found"] } },
       ⟨1, []⟩) :=
  query_client_error_single_attempt 3 404 ["Not Found"] "nf" _ _ "query q" none rfl
    (by decide) (by decide)

/-- C3: `mutate` performs exactly one request attempt on every call, and on any
failure the thrown classified `GraphQLError` carries the truncated mutation
text and the variable key names. -/
theorem mutate_single_attempt {V : Type} (outcome : Attempt V) (m : String)
    (vars : Option (List (String × String))) :
    (ShopifyClient.mutate outcome m vars).2 = 1 ∧
    (outcome.isFailure = true →
      ∃ e : GraphQLError, (ShopifyClient.mutate outcome m vars).1 = Sum.inr e ∧
        e.details.mutation = some (truncateQuery m) ∧
        e.details.variableKeys = getVariableKeys vars) := by
  cases outcome with
  | success d =>
    exact ⟨rfl, by intro h; simp [Attempt.isFailure] at h⟩
  | clientError s es msg =>
    exact ⟨rfl, fun _ => ⟨_, rfl, rfl, rfl⟩⟩
  | networkError msg =>
    exact ⟨rfl, fun _ => ⟨_, rfl, rfl, rfl⟩⟩

/-- Witness for `mutate_single_attempt` at a concrete failing mutation. -/
theorem mutate_single_attempt_witness :
    (ShopifyClient.mutate (Attempt.networkError (V := Nat) "boom") "m" none).2 = 1 ∧
    ∃ e : GraphQLError,
      (ShopifyClient.mutate (Attempt.networkError (V := Nat) "boom") "m" none).1 = Sum.inr e ∧
      e.details.mutation = some (truncateQuery "m") ∧
      e.details.variableKeys = getVariableKeys none :=
  ⟨(mutate_single_attempt _ "m" none).1, (mutate_single_attempt _ "m" none).2 rfl⟩

/-- C5: a failed scheduled refresh leaves the stored token state untouched
(`getAccessToken` keeps returning the previously issued token) and schedules a
retry 60 seconds later; a subsequent successful refresh stores the new token
and resumes the normal schedule, firing at `expiresAt` minus the 5-minute
margin clamped to at least 0. -/
theorem refresh_failure_preserves_token (now : Int) (s : AuthState) (msg : String) :
    (ShopifyAuth.refreshStep now (RefreshOutcome.failure msg) s).1 = s ∧
    ShopifyAuth.getAccessToken (ShopifyAuth.refreshStep now (RefreshOutcome.failure msg) s).1
      = ShopifyAuth.getAccessToken s ∧
    (ShopifyAuth.refreshStep now (RefreshOutcome.failure msg) s).2 = 60000 ∧
    (∀ (t : Int) (tok : String) (ei : Int),
      (ShopifyAuth.refreshStep t (RefreshOutcome.success tok ei) s).1.accessToken = some tok ∧
      (ShopifyAuth.refreshStep t (RefreshOutcome.success tok ei) s).1.expiresAt = t + ei * 1000 ∧
      (ShopifyAuth.refreshStep t (RefreshOutcome.success tok ei) s).2 =
        max ((ShopifyAuth.refreshStep t (RefreshOutcome.success tok ei) s).1.expiresAt
          - t - REFRESH_MARGIN_MS) 0 ∧
      (ShopifyAuth.refreshStep t (RefreshOutcome.success tok ei) s).2 =
        max (ei * 1000 - REFRESH_MARGIN_MS) 0) := by
  refine ⟨rfl, rfl, rfl, fun t tok ei => ⟨rfl, rfl, rfl, ?_⟩⟩
  show max (t + ei * 1000 - t - REFRESH_MARGIN_MS) 0 = max (ei * 1000 - REFRESH_MARGIN_MS) 0
  omega

/-- C6 counterexample: with neither `--apiVersion` nor `SHOPIFY_API_VERSION`
set, the configured API version defaults to `2026-01`, yet the endpoint built
by `ConfigManager.getShopifyGraphQLEndpoint` pins `2023-10` and therefore
differs from the claimed `https://{domain}/admin/api/{version}/graphql.json`. -/
theorem endpoint_hardcoded_version_counterexample :
    resolveApiVersion none none = "2026-01" ∧
    ConfigManager.getShopifyGraphQLEndpoint "test-store.myshopify.com" =
      "https://test-store.myshopify.com/admin/api/2023-10/graphql.json" ∧
    ConfigManager.getShopifyGraphQLEndpoint "test-store.myshopify.com" ≠
      indexGraphQLEndpoint "test-store.myshopify.com" (resolveApiVersion none none) :=
  ⟨rfl, by decide, by decide⟩

/-- C6 amended: the entry-point client posts to
`https://{domain}/admin/api/{version}/graphql.json` with `{version}` resolved
as `--apiVersion`, else `SHOPIFY_API_VERSION`, else `2026-01`, while the
parallel `ConfigManager`-based endpoint hardcodes version `2023-10` and passes
a domain already starting with `http` through verbatim. -/
theorem endpoint_resolution_amended (domain : String) (envApiVersion : Option String) :
    resolveApiVersion none none = "2026-01" ∧
    (∀ v : String, v ≠ "" → resolveApiVersion (some v) envApiVersion = v) ∧
    (∀ v : String, v ≠ "" → resolveApiVersion none (some v) = v) ∧
    (∀ version : String, indexGraphQLEndpoint domain version =
      "https://" ++ domain ++ "/admin/api/" ++ version ++ "/graphql.json") ∧
    (jsStartsWith domain "http" = false →
      ConfigManager.getShopifyGraphQLEndpoint domain =
        "https://" ++ domain ++ "/admin/api/2023-10/graphql.json") ∧
    (jsStartsWith domain "http" = true →
      ConfigManager.getShopifyGraphQLEndpoint domain =
        domain ++ "/admin/api/2023-10/graphql.json") := by
  refine ⟨rfl, fun v hv => ?_, fun v hv => ?_, fun _ => rfl, fun h => ?_, fun h => ?_⟩
  · simp [resolveApiVersion, jsOrString, hv]
  · simp [resolveApiVersion, jsOrString, hv]
  · simp [ConfigManager.getShopifyGraphQLEndpoint, h]
  · simp [ConfigManager.getShopifyGraphQLEndpoint, h]

/-- Witness for `endpoint_resolution_amended` at concrete inputs. -/
theorem endpoint_resolution_amended_witness :
    resolveApiVersion (some "2025-07") none = "2025-07" ∧
    ConfigManager.getShopifyGraphQLEndpoint "test.myshopify.com" =
      "https://" ++ "test.myshopify.com" ++ "/admin/api/2023-10/graphql.json" :=
  ⟨(endpoint_resolution_amended "test.myshopify.com" none).2.1 "2025-07" (by decide),
   (endpoint_resolution_amended "test.myshopify.com" none).2.2.2.2.1 (by decide)⟩

/-- Run of the retry loop in which every attempt up to `N` fails transiently:
the loop consumes all its fuel, awaits one backoff delay per non-final
attempt, and exits with the exhausted `GraphQLError`. -/
theorem queryGo_all_transient {V : Type} (N : Nat) (oracle : Nat → Attempt V)
    (jitter : Nat → Nat) (q : String) (vars : Option (List (String × String))) :
    ∀ (fuel attempt : Nat) (lastErr : Option String) (delays : List Nat),
      fuel + attempt = N + 1 →
      (∀ i, i ≤ N → (oracle i).isTransientFailure = true) →
      ∃ le : Option String,
        ShopifyClient.queryGo N oracle jitter q vars fuel attempt lastErr delays =
          (Sum.inr { message := exhaustedMessage N le,
                     details := { query := some (truncateQuery q),
                                  variableKeys := getVariableKeys vars,
                                  lastError := le,
                                  attempts := some (N + 1) } },
           ⟨N + 1, delays.reverse ++ (List.range' attempt (N - attempt)).map
              (fun i => calculateRetryDelay (jitter i) i)⟩) := by
  intro fuel
  induction fuel with
  | zero =>
    intro attempt lastErr delays hfa _hfail
    have hA : attempt = N + 1 := by omega
    subst hA
    have h0 : N - (N + 1) = 0 := by omega
    exact ⟨lastErr, by simp [ShopifyClient.queryGo, h0]⟩
  | succ fuel ih =>
    intro attempt lastErr delays hfa hfail
    have hle : attempt ≤ N := by omega
    have htrans := hfail attempt hle
    cases ho : oracle attempt with
    | success d =>
      rw [ho] at htrans
      simp [Attempt.isTransientFailure] at htrans
    | clientError status errs msg =>
      rw [ho] at htrans
      simp only [Attempt.isTransientFailure, Bool.not_eq_eq_eq_not, Bool.not_true] at htrans
      by_cases hlt : attempt < N
      · obtain ⟨le, hrec⟩ := ih (attempt + 1) (some msg)
          (calculateRetryDelay (jitter attempt) attempt :: delays) (by omega) hfail
        refine ⟨le, ?_⟩
        rw [ShopifyClient.queryGo, ho]
        simp only [htrans, Bool.false_eq_true, if_false, hlt, if_true]
        rw [hrec]
        have hsub : N - attempt = (N - (attempt + 1)) + 1 := by omega
        rw [hsub, List.range'_succ]
        simp [List.append_assoc]
      · have ha : attempt = N := by omega
        obtain ⟨le, hrec⟩ := ih (attempt + 1) (some msg) delays (by omega) hfail
        refine ⟨le, ?_⟩
        rw [ShopifyClient.queryGo, ho]
        simp only [htrans, Bool.false_eq_true, if_false, hlt, if_false]
        rw [hrec]
        have h1 : N - (attempt + 1) = 0 := by omega
        have h2 : N - attempt = 0 := by omega
        simp [h1, h2]
    | networkError msg =>
      by_cases hlt : attempt < N
      · obtain ⟨le, hrec⟩ := ih (attempt + 1) (some msg)
          (calculateRetryDelay (jitter attempt) attempt :: delays) (by omega) hfail
        refine ⟨le, ?_⟩
        rw [ShopifyClient.queryGo, ho]
        simp only [hlt, if_true]
        rw [hrec]
        have hsub : N - attempt = (N - (attempt + 1)) + 1 := by omega
        rw [hsub, List.range'_succ]
        simp [List.append_assoc]
      · have ha : attempt = N := by omega
        obtain ⟨le, hrec⟩ := ih (attempt + 1) (some msg) delays (by omega) hfail
        refine ⟨le, ?_⟩
        rw [ShopifyClient.queryGo, ho]
        simp only [hlt, if_false]
        rw [hrec]
        have h1 : N - (attempt + 1) = 0 := by omega
        have h2 : N - attempt = 0 := by omega
        simp [h1, h2]

/-- C1: for every configured retry count `N`, a `query` whose every attempt
fails transiently (non-4xx) makes exactly `N + 1` sequential attempts, awaits
the exponential backoff delay `min(1000 * 2^i + jitter_i, 30000)` between
attempt `i` and attempt `i + 1`, and fails with a classified `GraphQLError`
whose details carry `attempts = N + 1`, the truncated query text, and the
variable key names only. -/
theorem query_exhausts_after_all_transient {V : Type} (N : Nat) (oracle : Nat → Attempt V)
    (jitter : Nat → Nat) (q : String) (vars : Option (List (String × String)))
    (hfail : ∀ i, i ≤ N → (oracle i).isTransientFailure = true) :
    ∃ e : GraphQLError,
      ShopifyClient.query N oracle jitter q vars =
        (Sum.inr e,
         ⟨N + 1, (List.range N).map (fun i => calculateRetryDelay (jitter i) i)⟩) ∧
      e.details.attempts = some (N + 1) ∧
      e.details.query = some (truncateQuery q) ∧
      e.details.variableKeys = getVariableKeys vars := by
  obtain ⟨le, h⟩ := queryGo_all_transient N oracle jitter q vars (N + 1) 0 none []
    (by omega) hfail
  refine ⟨{ message := exhaustedMessage N le,
            details := { query := some (truncateQuery q),
                         variableKeys := getVariableKeys vars,
                         lastError := le,
                         attempts := some (N + 1) } }, ?_, rfl, rfl, rfl⟩
  rw [ShopifyClient.query, h]
  simp [List.range_eq_range']

/-- Witness for `query_exhausts_after_all_transient`: two transient failures
after `N = 2` retries are also exhausted at 3 attempts with delays 1000 and
2000 ms. -/
theorem query_exhausts_after_all_transient_witness :
    ∃ e : GraphQLError,
      ShopifyClient.query 2 (fun _ => Attempt.networkError (V := Nat) "socket hang up")
        (fun _ => 0) "query Q" none =
        (Sum.inr e,
         ⟨2 + 1, (List.range 2).map (fun i =>
            calculateRetryDelay ((fun _ => 0) i) i)⟩) ∧
      e.details.attempts = some (2 + 1) ∧
      e.details.query = some (truncateQuery "query Q") ∧
      e.details.variableKeys = getVariableKeys none :=
  query_exhausts_after_all_transient 2 _ _ "query Q" none (fun _ _ => rfl)

/-- C4: `BaseTool.execute` never lets a failure escape: it is a total function
into `ToolResult`, succeeds with the implementation data exactly when both
validation and the implementation succeed, and on any failure returns
`success = false` together with an error message and error metadata. -/
theorem execute_never_escapes {V : Type} (toolName : String) (duration : Nat)
    (timestamp : String) (parseError : Option String) (impl : Except JSError V) :
    ((BaseTool.execute toolName duration timestamp parseError impl).success = true ↔
      parseError = none ∧ ∃ d, impl = Except.ok d) ∧
    (∀ d : V, parseError = none → impl = Except.ok d →
      BaseTool.execute toolName duration timestamp parseError impl =
        { success := true, data := some d,
          metadata := { duration_ms := duration, timestamp := timestamp } }) ∧
    ((BaseTool.execute toolName duration timestamp parseError impl).success = false →
      (BaseTool.execute toolName duration timestamp parseError impl).error ≠ none ∧
      ((BaseTool.execute toolName duration timestamp parseError impl).metadata.errorCode ≠ none ∨
       (BaseTool.execute toolName duration timestamp parseError impl).metadata.errorType ≠ none)) := by
  cases parseError with
  | some m =>
    refine ⟨?_, ?_, ?_⟩
    · simp [BaseTool.execute, BaseTool.validateArgs]
    · intro d hn
      exact absurd hn (by simp)
    · intro _
      exact ⟨by simp [BaseTool.execute, BaseTool.validateArgs],
             Or.inl (by simp [BaseTool.execute, BaseTool.validateArgs])⟩
  | none =>
    cases impl with
    | ok d =>
      refine ⟨?_, ?_, ?_⟩
      · simp [BaseTool.execute, BaseTool.validateArgs]
      · intro d2 _ hok
        cases hok
        rfl
      · intro hfalse
        simp [BaseTool.execute, BaseTool.validateArgs] at hfalse
    | error e =>
      refine ⟨?_, ?_, ?_⟩
      · cases e <;> simp [BaseTool.execute, BaseTool.validateArgs]
      · intro d _ hok
        cases hok
      · intro _
        cases e with
        | mcp e2 =>
          exact ⟨by simp [BaseTool.execute, BaseTool.validateArgs],
                 Or.inl (by simp [BaseTool.execute, BaseTool.validateArgs])⟩
        | other nm msg =>
          exact ⟨by simp [BaseTool.execute, BaseTool.validateArgs],
                 Or.inr (by simp [BaseTool.execute, BaseTool.validateArgs])⟩

/-- Witness for `execute_never_escapes`: a validation failure yields a
`success = false` result with an error message and error metadata, and a
successful run yields the success result. -/
theorem execute_never_escapes_witness :
    (BaseTool.execute "get-products" 12 "t0" (some "limit must be a number")
        (Except.ok (0 : Nat))).error ≠ none ∧
    ((BaseTool.execute "get-products" 12 "t0" (some "limit must be a number")
        (Except.ok (0 : Nat))).metadata.errorCode ≠ none ∨
     (BaseTool.execute "get-products" 12 "t0" (some "limit must be a number")
        (Except.ok (0 : Nat))).metadata.errorType ≠ none) ∧
    BaseTool.execute "get-products" 12 "t0" none (Except.ok (7 : Nat)) =
      { success := true, data := some 7,
        metadata := { duration_ms := 12, timestamp := "t0" } } :=
  ⟨((execute_never_escapes "get-products" 12 "t0" (some "limit must be a number")
      (Except.ok 0)).2.2 (by decide)).1,
   ((execute_never_escapes "get-products" 12 "t0" (some "limit must be a number")
      (Except.ok 0)).2.2 (by decide)).2,
   (execute_never_escapes "get-products" 12 "t0" none (Except.ok 7)).2.1 7 rfl rfl⟩

/-- C7 counterexample: `getActiveTools` short-circuits the name `none` to the
empty list before any lookup, so a loaded package table whose `none` entry has
a non-empty tool list matches the configured name yet its tool list is not
returned. -/
theorem getActiveTools_none_shortcircuit_counterexample :
    jsLookup [("none", ({ name := "None", description := "custom",
                          tools := ["get-products"] } : ToolPackageConfig))] "none" =
      some { name := "None", description := "custom", tools := ["get-products"] } ∧
    ToolPackageManager.getActiveTools
      [("none", { name := "None", description := "custom", tools := ["get-products"] })]
      "none" = Except.ok [] ∧
    (["get-products"] : List String) ≠ [] :=
  ⟨rfl, rfl, by decide⟩

/-- C7 amended: a configured active name matching no loaded package makes
`validatePackage` fail with a configuration error whose message lists the
valid package names; a matching name other than `none` makes `getActiveTools`
return that package's tool list without error; the name `none` always yields
the empty list (which coincides with the built-in default `none` package). -/
theorem toolPackageManager_active_package (packages : List (String × ToolPackageConfig))
    (active : String) :
    (jsLookup packages active = none →
      ToolPackageManager.validatePackage packages active =
        Except.error { message := ("Invalid tool package \x27" ++ active
          ++ "\x27. Available packages: "
          ++ String.intercalate ", " (packages.map Prod.fst)) }) ∧
    (∀ cfg : ToolPackageConfig, jsLookup packages active = some cfg →
      ToolPackageManager.validatePackage packages active = Except.ok ()) ∧
    (∀ cfg : ToolPackageConfig, jsLookup packages active = some cfg → active ≠ "none" →
      ToolPackageManager.getActiveTools packages active = Except.ok cfg.tools) ∧
    (active = "none" → ToolPackageManager.getActiveTools packages active = Except.ok []) ∧
    ToolPackageManager.getActiveTools ToolPackageManager.getDefaultToolPackages "none" =
      Except.ok [] := by
  refine ⟨?_, ?_, ?_, ?_, rfl⟩
  · intro h
    simp [ToolPackageManager.validatePackage, h]
  · intro cfg h
    simp [ToolPackageManager.validatePackage, h]
  · intro cfg h hne
    simp [ToolPackageManager.getActiveTools, h, hne]
  · intro h
    simp [ToolPackageManager.getActiveTools, h]

/-- Witness for `toolPackageManager_active_package`: the unconfigured name
`bogus` fails against the built-in packages with an error listing the valid
names, and the name `basic` returns its tool list. -/
theorem toolPackageManager_active_package_witness :
    ToolPackageManager.validatePackage ToolPackageManager.getDefaultToolPackages "bogus" =
      Except.error { message := ("Invalid tool package \x27bogus\x27. Available packages: "
        ++ String.intercalate ", "
            (ToolPackageManager.getDefaultToolPackages.map Prod.fst)) } ∧
    ToolPackageManager.getActiveTools ToolPackageManager.getDefaultToolPackages "basic" =
      Except.ok ["get-products", "get-product-by-id", "get-customers",
                 "get-orders", "get-order-by-id"] :=
  ⟨by
    have h := (toolPackageManager_active_package
      ToolPackageManager.getDefaultToolPackages "bogus").1 rfl
    rw [h]
    rfl,
   by
    have h := (toolPackageManager_active_package
      ToolPackageManager.getDefaultToolPackages "basic").2.2.1
      { name := "Basic",
        description := "Essential read-only tools for basic store information",
        tools := ["get-products", "get-product-by-id", "get-customers",
                  "get-orders", "get-order-by-id"] } rfl (by decide)
    rw [h]⟩

/-- Source `splitOnChar` always returns a non-empty field list, like JS `split`. -/
theorem splitOnChar_ne_nil (sep : Char) (l : List Char) : splitOnChar sep l ≠ [] := by
  cases l with
  | nil => simp [splitOnChar]
  | cons c cs =>
    simp only [splitOnChar]
    by_cases h : c = sep
    · simp [h]
    · rw [if_neg h]
      cases hsp : splitOnChar sep cs <;> simp

/-- A list without the separator is a single field. -/
theorem splitOnChar_of_not_mem (sep : Char) (l : List Char) (h : sep ∉ l) :
    splitOnChar sep l = [l] := by
  induction l with
  | nil => rfl
  | cons c cs ih =>
    have hc : ¬ c = sep := fun he => h (he ▸ List.mem_cons_self c cs)
    have hcs : sep ∉ cs := fun hm => h (List.mem_cons_of_mem _ hm)
    simp only [splitOnChar, if_neg hc, ih hcs]

/-- Splitting distributes over an occurrence of the separator. -/
theorem splitOnChar_append_cons (sep : Char) (xs ys : List Char) :
    splitOnChar sep (xs ++ sep :: ys) = splitOnChar sep xs ++ splitOnChar sep ys := by
  induction xs with
  | nil => simp [splitOnChar]
  | cons c cs ih =>
    by_cases h : c = sep
    · simp only [List.cons_append, splitOnChar, if_pos h, List.append_eq, ih]
    · obtain ⟨h1, t1, hsp⟩ : ∃ h1 t1, splitOnChar sep cs = h1 :: t1 := by
        cases hsp : splitOnChar sep cs with
        | nil => exact absurd hsp (splitOnChar_ne_nil sep cs)
        | cons a b => exact ⟨a, b, rfl⟩
      simp only [List.cons_append, splitOnChar, if_neg h, List.append_eq, ih, hsp]

/-- A string whose character data extends `p`.data starts with `p`. -/
theorem jsStartsWith_of_data_eq (s p : String) (t : List Char) (h : s.data = p.data ++ t) :
    jsStartsWith s p = true := by
  rw [jsStartsWith, h]
  simp only [ List.isPrefixOf_iff_prefix]
  exact List.prefix_append _ _

/-- C8: `toGraphQLId` qualifies a bare numeric id as
`gid://shopify/{type}/{id}`, leaves an already-qualified id unchanged (hence
is idempotent), and `extractNumericId` inverts it on bare numeric ids, in
particular on `gid://shopify/Order/999`. -/
theorem gid_normalization_roundtrip (s T : String)
    (hs : ∀ c ∈ s.data, c.isDigit = true) :
    BaseTool.toGraphQLId s T = "gid://shopify/" ++ T ++ "/" ++ s ∧
    (∀ g : String, jsStartsWith g "gid://shopify/" = true → BaseTool.toGraphQLId g T = g) ∧
    (∀ g : String, BaseTool.toGraphQLId (BaseTool.toGraphQLId g T) T =
      BaseTool.toGraphQLId g T) ∧
    BaseTool.extractNumericId (BaseTool.toGraphQLId s T) = s ∧
    BaseTool.extractNumericId "gid://shopify/Order/999" = "999" := by
  have hns : jsStartsWith s "gid://shopify/" = false := by
    cases hb : jsStartsWith s "gid://shopify/" with
    | false => rfl
    | true =>
      exfalso
      rw [jsStartsWith] at hb
      obtain ⟨t, ht⟩ := List.isPrefixOf_iff_prefix.mp hb
      have hg : ('g' : Char) ∈ s.data := by
        rw [← ht]
        exact List.mem_append.mpr (Or.inl (by decide))
      exact absurd (hs 'g' hg) (by decide)
  have hfull : jsStartsWith ("gid://shopify/" ++ T ++ "/" ++ s) "gid://shopify/" = true := by
    apply jsStartsWith_of_data_eq _ _ (T.data ++ "/".data ++ s.data)
    simp
  refine ⟨by simp [BaseTool.toGraphQLId, hns], fun g hg => by simp [BaseTool.toGraphQLId, hg],
    ?_, ?_, by decide⟩
  · intro g
    by_cases hg : jsStartsWith g "gid://shopify/" = true
    · simp [BaseTool.toGraphQLId, hg]
    · have hg' : jsStartsWith g "gid://shopify/" = false := by
        cases hb : jsStartsWith g "gid://shopify/" with
        | false => rfl
        | true => exact absurd hb hg
      have hq : jsStartsWith ("gid://shopify/" ++ T ++ "/" ++ g) "gid://shopify/" = true := by
        apply jsStartsWith_of_data_eq _ _ (T.data ++ "/".data ++ g.data)
        simp
      simp [BaseTool.toGraphQLId, hg', hq]
  · rw [BaseTool.toGraphQLId, if_neg (by simp [hns])]
    rw [BaseTool.extractNumericId, if_pos hfull]
    have hdata : ("gid://shopify/" ++ T ++ "/" ++ s).data =
        ("gid://shopify/" ++ T).data ++ '/' :: s.data := by
      simp
    rw [hdata]
    have hnos : ('/' : Char) ∉ s.data := fun hmem => absurd (hs '/' hmem) (by decide)
    rw [splitOnChar_append_cons, splitOnChar_of_not_mem _ _ hnos, List.getLastD_concat]

/-- Witness for `gid_normalization_roundtrip` at the bare id `123` and type
`Product`. -/
theorem gid_normalization_roundtrip_witness :
    BaseTool.toGraphQLId "123" "Product" = "gid://shopify/" ++ "Product" ++ "/" ++ "123" ∧
    BaseTool.extractNumericId (BaseTool.toGraphQLId "123" "Product") = "123" ∧
    BaseTool.extractNumericId "gid://shopify/Order/999" = "999" := by
  obtain ⟨h1, _, _, h4, h5⟩ := gid_normalization_roundtrip "123" "Product" (by decide)
  exact ⟨h1, h4, h5⟩

/-- C9: masking a sensitive string longer than 8 characters keeps exactly its
first 4 and last 4 characters around an all-asterisk middle of the remaining
length (identically in the logger and the configuration manager), and
`sanitizeMeta` replaces the value of every sensitive key of a metadata object
with its masked form before the object is logged. -/
theorem sensitive_value_masking (s : String) (h : 8 < s.length) :
    (∃ mid : String,
      MCPLogger.maskSensitiveValue (JSValue.str s) =
        s.take 4 ++ mid ++ s.drop (s.length - 4) ∧
      ConfigManager.maskSensitiveValue s = s.take 4 ++ mid ++ s.drop (s.length - 4) ∧
      mid.length = s.length - 8 ∧
      ∀ c ∈ mid.data, c = '*') ∧
    (∀ (meta : List (String × JSValue)) (k : String) (v : JSValue),
      (k, v) ∈ meta → MCPLogger.isSensitiveKey k = true →
      (k, JSValue.str (MCPLogger.maskSensitiveValue v)) ∈ MCPLogger.sanitizeMeta meta) ∧
    (∀ (meta : List (String × JSValue)) (k : String) (v : JSValue),
      (k, v) ∈ MCPLogger.sanitizeMeta meta → MCPLogger.isSensitiveKey k = true →
      ∃ orig : JSValue, (k, orig) ∈ meta ∧
        v = JSValue.str (MCPLogger.maskSensitiveValue orig)) := by
  refine ⟨?_, ?_, ?_⟩
  · refine ⟨String.mk (List.replicate (s.length - 8) '*'), ?_, ?_, ?_, ?_⟩
    · simp only [MCPLogger.maskSensitiveValue]
      rw [if_neg (by omega)]
    · simp only [ConfigManager.maskSensitiveValue]
      rw [if_neg (by omega)]
    · show (List.replicate (s.length - 8) '*').length = s.length - 8
      simp
    · intro c hc
      exact List.eq_of_mem_replicate hc
  · intro meta k v hmem hsens
    have hm := List.mem_map_of_mem
      (fun kv : String × JSValue =>
        if MCPLogger.isSensitiveKey kv.1 then
          (kv.1, JSValue.str (MCPLogger.maskSensitiveValue kv.2))
        else kv) hmem
    simpa [MCPLogger.sanitizeMeta, hsens] using hm
  · intro meta k v hmem hsens
    rw [MCPLogger.sanitizeMeta] at hmem
    obtain ⟨⟨k2, v2⟩, hkv, heq⟩ := List.mem_map.mp hmem
    by_cases hs2 : MCPLogger.isSensitiveKey k2 = true
    · rw [if_pos hs2] at heq
      obtain ⟨hk, hv⟩ := Prod.mk.injEq .. ▸ heq
      exact ⟨v2, hk ▸ hkv, hv.symm⟩
    · rw [if_neg hs2] at heq
      obtain ⟨hk, _⟩ := Prod.mk.injEq .. ▸ heq
      exact absurd (hk ▸ hsens) hs2

/-- Witness for `sensitive_value_masking` at a concrete 16-character token in
a metadata object under the sensitive key `accessToken`. -/
theorem sensitive_value_masking_witness :
    (∃ mid : String,
      MCPLogger.maskSensitiveValue (JSValue.str "shpat_0123456789") =
        "shpat_0123456789".take 4 ++ mid
          ++ "shpat_0123456789".drop ("shpat_0123456789".length - 4) ∧
      ConfigManager.maskSensitiveValue "shpat_0123456789" =
        "shpat_0123456789".take 4 ++ mid
          ++ "shpat_0123456789".drop ("shpat_0123456789".length - 4) ∧
      mid.length = "shpat_0123456789".length - 8 ∧
      ∀ c ∈ mid.data, c = '*') ∧
    ("accessToken", JSValue.str
        (MCPLogger.maskSensitiveValue (JSValue.str "shpat_0123456789"))) ∈
      MCPLogger.sanitizeMeta [("accessToken", JSValue.str "shpat_0123456789")] := by
  obtain ⟨h1, h2, _⟩ := sensitive_value_masking "shpat_0123456789" (by decide)
  exact ⟨h1, h2 [("accessToken", JSValue.str "shpat_0123456789")] "accessToken"
    (JSValue.str "shpat_0123456789") (List.mem_singleton.mpr rfl) (by decide)⟩

/-- Property access preserves the no-null-array-elements invariant. -/
theorem noNullElems_getProp (v : JVal) (k : String) (h : v.noNullElems = true) :
    (v.getProp k).noNullElems = true := by
  cases v with
  | obj fs =>
    simp only [JVal.getProp]
    rw [JVal.noNullElems] at h
    induction fs with
    | nil => rfl
    | cons kv rest ih =>
      rw [JVal.noNullElemsFields, Bool.and_eq_true] at h
      obtain ⟨hv, hrest⟩ := h
      obtain ⟨k2, v2⟩ := kv
      simp only [jsLookup]
      by_cases hk : k2 = k
      · rw [if_pos hk]
        exact hv
      · rw [if_neg hk]
        exact ih hrest
  | null => rfl
  | undef => rfl
  | boolean b => rfl
  | num n => rfl
  | str s => rfl
  | arr xs => rfl

/-- Elements of an array satisfying the invariant are not nullish. -/
theorem noNullElemsList_not_nullish (xs : List JVal)
    (h : JVal.noNullElemsList xs = true) : ∀ e ∈ xs, e.isNullish = false := by
  induction xs with
  | nil => intro e he; cases he
  | cons e es ih =>
    rw [JVal.noNullElemsList, Bool.and_eq_true, Bool.and_eq_true] at h
    intro x hx
    rcases List.mem_cons.mp hx with hx | hx
    · subst hx
      have := h.1.1
      cases hb : x.isNullish
      · rfl
      · rw [hb] at this
        simp at this
    · exact ih h.2 x hx

/-- Mapping `edge.node` over an edges array with no nullish edge succeeds and
returns the nodes in the original order. -/
theorem mapM_edgeNode_ok (xs : List JVal) (h : ∀ e ∈ xs, e.isNullish = false) :
    xs.mapM edgeNode = Except.ok (xs.map (fun e => e.getProp "node")) := by
  induction xs with
  | nil => rfl
  | cons e es ih =>
    have he : edgeNode e = Except.ok (e.getProp "node") := by
      have hne := h e (List.mem_cons_self e es)
      cases e with
      | null => simp [JVal.isNullish] at hne
      | undef => simp [JVal.isNullish] at hne
      | boolean b => rfl
      | num n => rfl
      | str s => rfl
      | arr l => rfl
      | obj fs => rfl
    rw [List.mapM_cons, he, ih (fun x hx => h x (List.mem_cons_of_mem _ hx))]
    rfl

/-- The path walk of `extractEdges` is total on any value whose arrays contain
no nullish element. -/
theorem extractEdgesGo_total (parts : List String) :
    ∀ v : JVal, v.noNullElems = true →
      ∃ l, BaseTool.extractEdgesGo v parts = Except.ok l := by
  induction parts with
  | nil =>
    intro v hv
    simp only [BaseTool.extractEdgesGo]
    by_cases ht : (v.getProp "edges").truthy = false
    · rw [if_pos ht]
      exact ⟨[], rfl⟩
    · rw [if_neg ht]
      have hp := noNullElems_getProp v "edges" hv
      cases hedges : v.getProp "edges" with
      | arr xs =>
        rw [hedges, JVal.noNullElems] at hp
        exact ⟨_, mapM_edgeNode_ok xs (noNullElemsList_not_nullish xs hp)⟩
      | null => exact ⟨[], rfl⟩
      | undef => exact ⟨[], rfl⟩
      | boolean b => exact ⟨[], rfl⟩
      | num n => exact ⟨[], rfl⟩
      | str s => exact ⟨[], rfl⟩
      | obj fs => exact ⟨[], rfl⟩
  | cons p rest ih =>
    intro v hv
    simp only [BaseTool.extractEdgesGo]
    by_cases h1 : v.truthy = false
    · rw [if_pos h1]
      exact ⟨[], rfl⟩
    · rw [if_neg h1]
      by_cases h2 : (v.getProp p).truthy = false
      · rw [if_pos h2]
        exact ⟨[], rfl⟩
      · rw [if_neg h2]
        exact ih _ (noNullElems_getProp v p hv)

/-- C10 counterexample: an edges array containing `null` makes `extractEdges`
throw a `TypeError` (from `edge.node` in the `map` callback) instead of
returning a result, so `extractEdges` is not total on every response object. -/
theorem extractEdges_null_edge_counterexample :
    BaseTool.extractEdges
      (JVal.obj [("customers", JVal.obj [("edges", JVal.arr [JVal.null])])]) "customers" =
      Except.error "TypeError: Cannot read properties of null (reading node)" := by
  rfl

/-- C10 amended: `extractEdges` never throws on a response whose arrays contain
no `null`/`undefined` element: it returns `[]` when the path is missing, a
component is falsy, or no edges array is present (so a list tool sees an empty
success, not a failure), and otherwise returns the `node` of each edge in the
original order. -/
theorem extractEdges_amended (response : JVal) (path : String)
    (h : response.noNullElems = true) :
    (∃ l, BaseTool.extractEdges response path = Except.ok l) ∧
    BaseTool.extractEdges (JVal.obj []) "customers" = Except.ok [] ∧
    BaseTool.extractEdges (JVal.obj [("data", JVal.null)]) "customers" = Except.ok [] ∧
    (∀ xs : List JVal, (∀ e ∈ xs, e.isNullish = false) →
      BaseTool.extractEdges
        (JVal.obj [("customers", JVal.obj [("edges", JVal.arr xs)])]) "customers" =
        Except.ok (xs.map (fun e => e.getProp "node"))) := by
  refine ⟨extractEdgesGo_total (splitPath path) response h, rfl, rfl, ?_⟩
  intro xs hxs
  have hstep : BaseTool.extractEdges
      (JVal.obj [("customers", JVal.obj [("edges", JVal.arr xs)])]) "customers" =
      xs.mapM edgeNode := rfl
  rw [hstep, mapM_edgeNode_ok xs hxs]

/-- Witness for `extractEdges_amended` on a concrete one-customer response. -/
theorem extractEdges_amended_witness :
    (JVal.obj [("customers", JVal.obj [("edges",
       JVal.arr [JVal.obj [("node", JVal.str "c1")]])])]).noNullElems = true ∧
    (∃ l, BaseTool.extractEdges
      (JVal.obj [("customers", JVal.obj [("edges",
         JVal.arr [JVal.obj [("node", JVal.str "c1")]])])]) "customers" =
      Except.ok l) :=
  ⟨rfl,
   (extractEdges_amended
     (JVal.obj [("customers", JVal.obj [("edges",
        JVal.arr [JVal.obj [("node", JVal.str "c1")]])])]) "customers" rfl).1⟩
